import Mathlib

/-!
Verification of the self-update subsystem of the Video-Downloader-Pro
repository: a shallow embedding of `src/services/update_service.py`
(`UpdateService.checkForUpdates`, `UpdateService._downloadTask`,
`UpdateService._launchUpdater`) and of `updater.py` (`performUpdate`, `main`),
together with theorems about the embedded definitions.
-/

namespace VideoDownloaderPro

/-! ## Version parsing and comparison

`checkForUpdates` calls `packaging.version.parse` on the two version strings
and compares the results.  For dotted numeric version strings (the only shape
the manifest carries), `packaging` parses the release segment into a tuple of
integers and compares tuples componentwise with zero padding of the shorter
tuple.  `parseVersion` and `versionGtParts` embed exactly that behaviour;
a string that is not dotted-numeric makes `packaging.version.parse` raise
`InvalidVersion`, modelled by `parseVersion` returning `none`. -/

/-- Split a character list on the dot separator, keeping empty parts, the way
`"a.b.c".split(".")` does. -/
def splitParts : List Char → List (List Char)
  | [] => [[]]
  | c :: cs =>
    if c = '.' then [] :: splitParts cs
    else
      match splitParts cs with
      | [] => [[c]]
      | p :: ps => (c :: p) :: ps

/-- Accumulate decimal digits; any non-digit character fails the parse. -/
def parseNatAux : List Char → Nat → Option Nat
  | [], n => some n
  | c :: cs, n =>
    if c.isDigit then parseNatAux cs (n * 10 + (c.toNat - Char.toNat '0'))
    else none

/-- Parse one version component: a nonempty run of decimal digits. -/
def parseNatPart : List Char → Option Nat
  | [] => none
  | c :: cs => parseNatAux (c :: cs) 0

/-- Parse a dotted numeric version string into its list of numeric components,
as `packaging.version.parse` does for release segments; `none` models the
`InvalidVersion` exception raised on any non-numeric component. -/
def parseVersion (s : String) : Option (List Nat) :=
  (splitParts s.toList).mapM parseNatPart

/-- Pad a component list with trailing zeros up to length `n`, as `packaging`
zero-pads the shorter release tuple when comparing. -/
def padTo (l : List Nat) (n : Nat) : List Nat :=
  l ++ List.replicate (n - l.length) 0

/-- Strict lexicographic greater-than on equal-length component lists. -/
def lexGt : List Nat → List Nat → Bool
  | [], _ => false
  | _ :: _, [] => false
  | a :: as, b :: bs => if b < a then true else if a < b then false else lexGt as bs

/-- `version.parse(x) > version.parse(y)` for parsed component lists:
zero-pad both to a common length and compare lexicographically. -/
def versionGtParts (x y : List Nat) : Bool :=
  lexGt (padTo x (max x.length y.length)) (padTo y (max x.length y.length))

/-! ## The network environment of `checkForUpdates`

`checkForUpdates` issues one HTTP GET.  From the function's point of view the
network either raises (connection failure, timeout) or yields a response with
a status code and a body whose `.json()` either raises or yields a dictionary;
of that dictionary the code reads only the `latest_version` and `download_url`
fields, so the parsed body is embedded as those two optional fields. -/

/-- Outcome of `response.json()`: raises, or yields a dictionary from which
only the `latest_version` and `download_url` fields are read. -/
inductive JsonOutcome where
  | malformed
  | parsed (latest_version : Option String) (download_url : Option String)
  deriving DecidableEq

/-- Outcome of `requests.get`: an exception (network failure / timeout), or a
response carrying a status code and a body. -/
inductive FetchOutcome where
  | exn
  | response (status : Nat) (body : JsonOutcome)
  deriving DecidableEq

/-- Embedding of `UpdateService.checkForUpdates` (update_service.py lines
14-29).  The network behaviour is passed in as `fetch`.  Returns the triple
`(isAvailable, latestVersion, downloadUrl)`.  The `try/except` that wraps the
whole body is reflected by every failure branch returning
`(false, none, none)`; the Python truthiness test `if latestVersion` is the
emptiness test on the string. -/
def checkForUpdates (currentVersion : String) (fetch : FetchOutcome) :
    Bool × Option String × Option String :=
  match fetch with
  | .exn => (false, none, none)
  | .response status body =>
    if status = 200 then
      match body with
      | .malformed => (false, none, none)
      | .parsed latestVersion downloadUrl =>
        match latestVersion with
        | none => (false, none, none)
        | some lv =>
          if lv = "" then (false, none, none)
          else
            match parseVersion lv, parseVersion currentVersion with
            | some l, some c =>
              if versionGtParts l c then (true, some lv, downloadUrl)
              else (false, none, none)
            | _, _ => (false, none, none)
    else (false, none, none)

/-- Modelled from the spec: "semantic-version ordering (major.minor.patch
comparison)" — `M.m.p` is strictly greater than `M'.m'.p'` when the major
components differ on the larger side, or majors agree and minors differ, or
majors and minors agree and the patch is larger. -/
def SemVerGt3 (M m p M' m' p' : Nat) : Prop :=
  M' < M ∨ (M = M' ∧ (m' < m ∨ (m = m' ∧ p' < p)))

example : parseVersion "2.1.0" = some [2, 1, 0] := by decide
example : parseVersion "" = none := by decide
example : parseVersion "abc" = none := by decide
example : versionGtParts [2, 1, 0] [2, 0, 9] = true := by decide
example : versionGtParts [1, 10, 0] [1, 9, 0] = true := by decide
example : versionGtParts [2, 0, 0] [2, 0, 0] = false := by decide
example : versionGtParts [1, 0] [1, 0, 0] = false := by decide
example :
    checkForUpdates "1.0.0" (.response 200 (.parsed (some "2.0.0") none)) =
      (true, some "2.0.0", none) := by decide

/-! ## The download-and-stage task

`UpdateService._downloadTask` (update_service.py lines 45-121) runs on a
background thread; its observable behaviour is the sequence of callback
invocations and filesystem / process effects, embedded here as a trace of
`Event`s, plus whether the staging file `<exe>.new` exists when the task
returns.  The environment the task runs in — frozen flag, presence of the
bundled updater, outcome of the `shutil.copy2`, and the network's behaviour —
is passed in as a `DownloadEnv`.  Python floats on the progress path are
embedded as exact rationals. -/

/-- One item yielded by `response.iter_content`: a data chunk of `n` bytes
(`n = 0` models an empty chunk, which the loop treats as end of stream via
`if not data: break`), or an exception raised during the chunked network read
or the `file.write` call (both propagate to the same outer handler before
`downloaded` is incremented). -/
inductive StreamItem where
  | chunk (n : Nat)
  | err (msg : String)
  deriving DecidableEq

/-- Outcome of `requests.get(downloadUrl, ...)` followed by
`raise_for_status()`: an exception (connection failure, timeout, 4xx/5xx
status), or a successful response with the advertised `content-length`
(`0` when the header is absent) and the stream of chunks. -/
inductive RequestResult where
  | failure (msg : String)
  | success (contentLength : Nat) (stream : List StreamItem)
  deriving DecidableEq

/-- The environment a single `_downloadTask` execution runs in. -/
structure DownloadEnv where
  /-- `getattr(sys, 'frozen', False)` — packaged build or dev invocation. -/
  frozen : Bool
  /-- whether `updater.exe` exists at one of the two searched locations. -/
  updaterFound : Bool
  /-- `some msg` when `shutil.copy2` to the OS temp directory raises. -/
  copyError : Option String
  /-- behaviour of the download HTTP request. -/
  request : RequestResult

/-- Observable events of a `_downloadTask` execution, in program order. -/
inductive Event where
  /-- `shutil.copy2(updaterPath, safeUpdaterPath)` succeeded. -/
  | copiedUpdater
  /-- `requests.get(downloadUrl, ...)` was issued. -/
  | networkRequest
  /-- `open(newExePath, 'wb')` created the staging file. -/
  | fileCreated
  /-- `file.write(data)` wrote a chunk of `n` bytes. -/
  | wrote (n : Nat)
  /-- `progressCallback(f)` was invoked with fraction `f`. -/
  | progress (f : ℚ)
  /-- `os.remove(newExePath)` deleted the staging file. -/
  | removedStaging
  /-- `errorCallback(msg)` was invoked. -/
  | error (msg : String)
  /-- `completedCallback()` was invoked. -/
  | completed
  /-- `_launchUpdater` was invoked (detached spawn, then `os._exit(0)`). -/
  | launchedUpdater
  deriving DecidableEq

/-- Python's two-argument `min` on rationals, as in `min(downloaded / totalSize, 1.0)`. -/
def pymin (a b : ℚ) : ℚ := if a ≤ b then a else b

/-- The chunk loop of `_downloadTask` (lines 88-97): iterate the stream,
breaking on an empty chunk, writing each chunk, accumulating `downloaded`,
and reporting clamped progress after every chunk when a content-length was
advertised.  Returns the events of the loop, the final `downloaded` count,
and `some msg` when an exception escaped the loop. -/
def streamLoop (totalSize : Nat) : List StreamItem → Nat → List Event × Nat × Option String
  | [], downloaded => ([], downloaded, none)
  | .err m :: _, downloaded => ([], downloaded, some m)
  | .chunk n :: rest, downloaded =>
    if n = 0 then ([], downloaded, none)
    else
      let d := downloaded + n
      let tail := streamLoop totalSize rest d
      (Event.wrote n ::
        (if 0 < totalSize then
          [Event.progress (pymin ((d : ℚ) / (totalSize : ℚ)) 1)]
        else []) ++ tail.1,
       tail.2.1, tail.2.2)

/-- Embedding of `UpdateService._downloadTask` (lines 45-121).  Returns the
event trace and whether the staging file `<exe>.new` exists when the task
returns.  Error messages carry the `"Update failed: "` prefix the outer
`except` handler adds.  The cleanup `os.remove` in the handler is modelled as
succeeding (its own failure is swallowed by the inner `try/except pass`). -/
def downloadTask (env : DownloadEnv) : List Event × Bool :=
  if env.frozen = false then
    ([.error "Cannot self-update in dev environment"], false)
  else if env.updaterFound = false then
    ([.error "Updater executable not found in built assets!"], false)
  else
    match env.copyError with
    | some m => ([.error ("Update failed: " ++ m)], false)
    | none =>
      match env.request with
      | .failure m =>
        ([.copiedUpdater, .networkRequest, .error ("Update failed: " ++ m)], false)
      | .success totalSize stream =>
        let r := streamLoop totalSize stream 0
        let pre := Event.copiedUpdater :: Event.networkRequest :: Event.fileCreated :: r.1
        match r.2.2 with
        | some m =>
          (pre ++ [.removedStaging, .error ("Update failed: " ++ m)], false)
        | none =>
          if 0 < totalSize ∧ r.2.1 ≠ totalSize then
            (pre ++ [.removedStaging, .error "Download incomplete due to network drop!"], false)
          else
            (pre ++ [.completed, .launchedUpdater], true)

/-- The fractions passed to `progressCallback`, in order. -/
def progressValues : List Event → List ℚ
  | [] => []
  | .progress f :: es => f :: progressValues es
  | _ :: es => progressValues es

/-- `a` occurs strictly before `b` in the trace `tr`. -/
def occursBefore {α : Type} (a b : α) (tr : List α) : Prop :=
  ∃ l₁ l₂ l₃, tr = l₁ ++ a :: (l₂ ++ b :: l₃)

/-- The download-phase failure modes of claim C2: the HTTP request (or its
`raise_for_status`) raises, an exception escapes the chunk loop (chunked
network read or `file.write`), or the stream ends with a byte count different
from the advertised content length. -/
def downloadFails (env : DownloadEnv) : Prop :=
  (∃ m, env.request = .failure m) ∨
  (∃ totalSize stream m, env.request = .success totalSize stream ∧
    (streamLoop totalSize stream 0).2.2 = some m) ∨
  (∃ totalSize stream, env.request = .success totalSize stream ∧
    (streamLoop totalSize stream 0).2.2 = none ∧
    0 < totalSize ∧ (streamLoop totalSize stream 0).2.1 ≠ totalSize)

attribute [local semireducible] Rat.mul Rat.inv Rat.add Rat.sub in
example :
    downloadTask ⟨true, true, none, .success 10 [.chunk 4]⟩ =
      ([.copiedUpdater, .networkRequest, .fileCreated, .wrote 4,
        .progress (pymin ((4 : ℚ) / 10) 1), .removedStaging,
        .error "Download incomplete due to network drop!"], false) := by decide

attribute [local semireducible] Rat.mul Rat.inv Rat.add Rat.sub in
example :
    downloadTask ⟨true, true, none, .success 2 [.chunk 1, .chunk 1]⟩ =
      ([.copiedUpdater, .networkRequest, .fileCreated, .wrote 1,
        .progress (pymin ((1 : ℚ) / 2) 1), .wrote 1,
        .progress (pymin ((2 : ℚ) / 2) 1), .completed, .launchedUpdater],
       true) := by decide

/-! ## The Updater executable

`updater.py` is invoked as `updater <oldExe> <newExe>`.  `performUpdate`
(lines 9-51) retries deleting the old executable once a second for at most 15
attempts, then moves the staged file into place and relaunches.  Its
observable behaviour is embedded as a trace of `UEvent`s over an environment
describing which filesystem operations succeed. -/

/-- Observable events of an Updater run, in program order. -/
inductive UEvent where
  /-- `os.remove(oldExe)` succeeded inside the wait loop. -/
  | removedOld
  /-- the retry budget was exhausted ("Timeout waiting for process to exit"). -/
  | timedOut
  /-- `shutil.move(newExe, oldExe)` was attempted. -/
  | moveAttempted
  /-- the move succeeded (the update is installed). -/
  | moved
  /-- the move raised ("Failed to install"). -/
  | installFailed
  /-- `os.startfile(oldExe)` relaunched the application. -/
  | relaunched
  deriving DecidableEq

/-- The environment an Updater run operates in. -/
structure UpdaterEnv where
  /-- whether `oldExe` exists on disk when the wait loop starts. -/
  oldExists : Bool
  /-- whether delete attempt `i` succeeds, or raises `PermissionError`
  because the Primary still holds the file (the file's lock state at try `i`). -/
  removeOk : Nat → Bool
  /-- whether `shutil.move(newExe, oldExe)` succeeds. -/
  moveOk : Bool
  /-- whether `os.startfile(oldExe)` succeeds (its failure is swallowed). -/
  launchOk : Bool

/-- The install-and-relaunch tail of `performUpdate` (updater.py lines
35-51): attempt the move; on failure report and stop; on success relaunch
best-effort. -/
def installPhase (env : UpdaterEnv) : List UEvent :=
  UEvent.moveAttempted ::
    (if env.moveOk then
      UEvent.moved :: (if env.launchOk then [UEvent.relaunched] else [])
    else [UEvent.installFailed])

/-- Embedding of `performUpdate` (updater.py lines 9-51).  The wait loop
`for _ in range(15)` breaks as soon as `oldExe` is absent or a delete
succeeds; if all 15 attempts raise `PermissionError` the `else` branch of the
`for` reports the timeout and returns without touching any file. -/
def performUpdate (env : UpdaterEnv) : List UEvent :=
  if env.oldExists then
    match (List.range 15).find? env.removeOk with
    | some _ => UEvent.removedOld :: installPhase env
    | none => [UEvent.timedOut]
  else installPhase env

/-- Embedding of `main` (updater.py lines 53-87): the argument-count guard
`if len(sys.argv) != 3: sys.exit(1)` runs before any file operation; a run
that passes the guard performs `performUpdate`.  Returns the exit code and
the trace of file-operation events.  `argv` is the full `sys.argv`, program
name included. -/
def updaterMain (argv : List String) (env : UpdaterEnv) : Nat × List UEvent :=
  if argv.length ≠ 3 then (1, [])
  else (0, performUpdate env)

example :
    performUpdate ⟨true, fun _ => false, true, true⟩ = [.timedOut] := by decide
example :
    performUpdate ⟨true, fun i => i = 3, true, true⟩ =
      [.removedOld, .moveAttempted, .moved, .relaunched] := by decide
example :
    performUpdate ⟨false, fun _ => false, false, true⟩ =
      [.moveAttempted, .installFailed] := by decide
example : updaterMain ["updater"] ⟨true, fun _ => true, true, true⟩ = (1, []) := by
  decide

/-! ## Helper lemmas -/

/-- The error prefix added by the outer `except` handler makes every such
message nonempty. -/
lemma update_failed_msg_ne_empty (m : String) : "Update failed: " ++ m ≠ "" := by
  intro h
  have hlen := congrArg String.length h
  rw [String.length_append] at hlen
  have h15 : ("Update failed: " : String).length = 15 := rfl
  have h0 : ("" : String).length = 0 := rfl
  omega

/-- One unfolding step of the chunk loop on a nonempty chunk. -/
lemma streamLoop_cons_pos (totalSize n : Nat) (rest : List StreamItem)
    (d : Nat) (hn : n ≠ 0) :
    streamLoop totalSize (.chunk n :: rest) d =
      (Event.wrote n ::
        ((if 0 < totalSize then
            [Event.progress (pymin (((d + n : Nat) : ℚ) / (totalSize : ℚ)) 1)]
          else []) ++ (streamLoop totalSize rest (d + n)).1),
       (streamLoop totalSize rest (d + n)).2.1,
       (streamLoop totalSize rest (d + n)).2.2) := by
  simp [streamLoop, hn]

/-- Every event emitted by the chunk loop is a write or a progress report. -/
lemma streamLoop_mem (totalSize : Nat) (s : List StreamItem) (d : Nat) :
    ∀ e ∈ (streamLoop totalSize s d).1,
      (∃ n, e = Event.wrote n) ∨ ∃ f, e = Event.progress f := by
  induction s generalizing d with
  | nil => simp [streamLoop]
  | cons it rest ih =>
    cases it with
    | err m => simp [streamLoop]
    | chunk n =>
      by_cases hn : n = 0
      · simp [streamLoop, hn]
      · intro e he
        rw [streamLoop_cons_pos totalSize n rest d hn] at he
        rcases List.mem_cons.mp he with he | he
        · exact Or.inl ⟨n, he⟩
        rcases List.mem_append.mp he with he | he
        · by_cases hT : 0 < totalSize
          · rw [if_pos hT] at he
            exact Or.inr ⟨_, List.mem_singleton.mp he⟩
          · rw [if_neg hT] at he
            exact absurd he (List.not_mem_nil e)
        · exact ih (d + n) e he

lemma streamLoop_no_completed (totalSize : Nat) (s : List StreamItem) (d : Nat) :
    Event.completed ∉ (streamLoop totalSize s d).1 := by
  intro h
  rcases streamLoop_mem totalSize s d _ h with ⟨n, hn⟩ | ⟨f, hf⟩ <;> simp_all

lemma streamLoop_no_launched (totalSize : Nat) (s : List StreamItem) (d : Nat) :
    Event.launchedUpdater ∉ (streamLoop totalSize s d).1 := by
  intro h
  rcases streamLoop_mem totalSize s d _ h with ⟨n, hn⟩ | ⟨f, hf⟩ <;> simp_all

/-- On three-component versions, the code's padded lexicographic comparison
is exactly major.minor.patch ordering. -/
lemma versionGtParts_three (M m p M' m' p' : Nat) :
    versionGtParts [M, m, p] [M', m', p'] = true ↔ SemVerGt3 M m p M' m' p' := by
  show lexGt [M, m, p] [M', m', p'] = true ↔ _
  simp only [lexGt, SemVerGt3]
  split_ifs <;> simp_all <;> omega

/-! ## Claims about `checkForUpdates` -/

/-- C1: when the manifest fetch succeeds with HTTP 200 and a parseable JSON
body whose `latest_version` is present, and both version strings are dotted
numeric `major.minor.patch` strings, `checkForUpdates` reports an update as
available if and only if the latest version is strictly greater than the
current one under semantic-version (componentwise numeric, not lexicographic
string) ordering. -/
theorem checkForUpdates_semver_ordering
    (currentVersion latestVersion : String) (downloadUrl : Option String)
    (M m p M' m' p' : Nat)
    (hc : parseVersion currentVersion = some [M, m, p])
    (hl : parseVersion latestVersion = some [M', m', p']) :
    (checkForUpdates currentVersion
        (.response 200 (.parsed (some latestVersion) downloadUrl))).1 = true ↔
      SemVerGt3 M' m' p' M m p := by
  have hne : latestVersion ≠ "" := by
    intro h
    rw [h] at hl
    have hnone : parseVersion "" = none := by decide
    rw [hnone] at hl
    exact Option.noConfusion hl
  rw [← versionGtParts_three]
  simp only [checkForUpdates, if_pos rfl, hne, hl, hc]
  split_ifs with hgt <;> simp_all

theorem checkForUpdates_semver_ordering_witness :
    parseVersion "2.0.9" = some [2, 0, 9] ∧
      parseVersion "2.1.0" = some [2, 1, 0] ∧
      ((checkForUpdates "2.0.9"
          (.response 200 (.parsed (some "2.1.0") (some "u")))).1 = true ↔
        SemVerGt3 2 1 0 2 0 9) :=
  ⟨by decide, by decide,
    checkForUpdates_semver_ordering "2.0.9" "2.1.0" (some "u") 2 0 9 2 1 0
      (by decide) (by decide)⟩

/-- C3: for every input and every behaviour of the network/JSON layer —
network failure or timeout (`FetchOutcome.exn`), a non-200 HTTP status, or a
malformed JSON body — `checkForUpdates` returns the "not available" triple
`(false, none, none)`.  The embedding is a total function, reflecting that
the `try/except` wrapper lets no exception propagate to the caller. -/
theorem checkForUpdates_failure_transparency (currentVersion : String)
    (fetch : FetchOutcome)
    (h : fetch = .exn ∨
      (∃ s b, fetch = .response s b ∧ s ≠ 200) ∨
      ∃ s, fetch = .response s .malformed) :
    checkForUpdates currentVersion fetch = (false, none, none) := by
  rcases h with rfl | ⟨s, b, rfl, hs⟩ | ⟨s, rfl⟩
  · rfl
  · simp [checkForUpdates, hs]
  · by_cases hs : s = 200 <;> simp [checkForUpdates, hs]

theorem checkForUpdates_failure_transparency_witness :
    checkForUpdates "2.0.0" .exn = (false, none, none) :=
  checkForUpdates_failure_transparency "2.0.0" .exn (Or.inl rfl)

/-- C4 counterexample: the manifest body `{"latest_version": "2.0.0"}` lacks
the `download_url` field, yet `checkForUpdates "1.0.0"` reports an update as
available (with a `none` URL) instead of returning "no update available";
only the absence of `latest_version` is checked by the code. -/
theorem checkForUpdates_missing_url_counterexample :
    checkForUpdates "1.0.0" (.response 200 (.parsed (some "2.0.0") none)) =
      (true, some "2.0.0", none) := by decide

/-- C4 (amended): a manifest body lacking `latest_version` is treated as "no
update available"; but a body lacking only `download_url` does not block
availability — when `latest_version` is present and newer the update is still
reported available, with a `none` download URL. -/
theorem checkForUpdates_missing_fields (currentVersion : String) :
    (∀ (s : Nat) (url : Option String),
      checkForUpdates currentVersion (.response s (.parsed none url)) =
        (false, none, none)) ∧
    (∀ (lv : String) (lp cp : List Nat),
      parseVersion lv = some lp → parseVersion currentVersion = some cp →
      versionGtParts lp cp = true →
      checkForUpdates currentVersion (.response 200 (.parsed (some lv) none)) =
        (true, some lv, none)) := by
  constructor
  · intro s url
    by_cases hs : s = 200 <;> simp [checkForUpdates, hs]
  · intro lv lp cp hl hc hgt
    have hne : lv ≠ "" := by
      intro h
      rw [h] at hl
      have hnone : parseVersion "" = none := by decide
      rw [hnone] at hl
      exact Option.noConfusion hl
    simp [checkForUpdates, hne, hl, hc, hgt]

theorem checkForUpdates_missing_fields_witness :
    checkForUpdates "1.0.0" (.response 200 (.parsed none (some "u"))) =
        (false, none, none) ∧
      checkForUpdates "1.0.0" (.response 200 (.parsed (some "2.0.0") none)) =
        (true, some "2.0.0", none) :=
  ⟨(checkForUpdates_missing_fields "1.0.0").1 200 (some "u"),
    (checkForUpdates_missing_fields "1.0.0").2 "2.0.0" [2, 0, 0] [1, 0, 0]
      (by decide) (by decide) (by decide)⟩

/-! ## Claims about the Updater executable -/

/-- C9: an Updater invocation whose `sys.argv` does not carry exactly two
positional arguments after the program name exits with the nonzero code `1`
and performs no file operation (its event trace is empty). -/
theorem updaterMain_usage_guard (prog : String) (args : List String)
    (env : UpdaterEnv) (h : args.length ≠ 2) :
    (updaterMain (prog :: args) env).1 ≠ 0 ∧
      (updaterMain (prog :: args) env).2 = [] := by
  have h3 : (prog :: args).length ≠ 3 := by
    simp only [List.length_cons]
    omega
  unfold updaterMain
  rw [if_pos h3]
  exact ⟨one_ne_zero, rfl⟩

theorem updaterMain_usage_guard_witness :
    ([] : List String).length ≠ 2 ∧
      (updaterMain ["updater"] ⟨true, fun _ => true, true, true⟩).1 ≠ 0 ∧
      (updaterMain ["updater"] ⟨true, fun _ => true, true, true⟩).2 = [] :=
  ⟨by decide, updaterMain_usage_guard "updater" []
    ⟨true, fun _ => true, true, true⟩ (by decide)⟩

/-- C5: when the old executable exists and every one of the 15 once-a-second
delete attempts fails with `PermissionError`, the Updater run terminates in
the timed-out state: its trace is exactly `[timedOut]`, so the move of
`newExecutablePath` onto `oldExecutablePath` is never attempted and no
relaunch happens. -/
theorem performUpdate_timeout (env : UpdaterEnv)
    (hex : env.oldExists = true)
    (h : ∀ i < 15, env.removeOk i = false) :
    performUpdate env = [UEvent.timedOut] ∧
      UEvent.moveAttempted ∉ performUpdate env ∧
      UEvent.moved ∉ performUpdate env ∧
      UEvent.relaunched ∉ performUpdate env := by
  have hf : (List.range 15).find? env.removeOk = none := by
    rw [List.find?_eq_none]
    intro i hi
    rw [List.mem_range] at hi
    simp [h i hi]
  have he : performUpdate env = [UEvent.timedOut] := by
    simp [performUpdate, hex, hf]
  refine ⟨he, ?_, ?_, ?_⟩ <;> rw [he] <;> simp

theorem performUpdate_timeout_witness :
    (UpdaterEnv.mk true (fun _ => false) true true).oldExists = true ∧
      performUpdate ⟨true, fun _ => false, true, true⟩ = [UEvent.timedOut] ∧
      UEvent.moveAttempted ∉ performUpdate ⟨true, fun _ => false, true, true⟩ ∧
      UEvent.moved ∉ performUpdate ⟨true, fun _ => false, true, true⟩ ∧
      UEvent.relaunched ∉ performUpdate ⟨true, fun _ => false, true, true⟩ :=
  ⟨rfl, performUpdate_timeout ⟨true, fun _ => false, true, true⟩ rfl
    (fun _ _ => rfl)⟩

/-! ## Claims about the download task -/

/-- C8: invoked from a non-frozen (development) environment, the download
task fails fast: the whole trace is one descriptive `errorCallback`
invocation — in particular no network request is issued and no staging file
is created (and none exists when the task returns). -/
theorem downloadTask_dev_guard (env : DownloadEnv) (h : env.frozen = false) :
    downloadTask env =
        ([Event.error "Cannot self-update in dev environment"], false) ∧
      Event.networkRequest ∉ (downloadTask env).1 ∧
      Event.fileCreated ∉ (downloadTask env).1 := by
  have he : downloadTask env =
      ([Event.error "Cannot self-update in dev environment"], false) := by
    simp [downloadTask, h]
  refine ⟨he, ?_, ?_⟩ <;> rw [he] <;> simp

/-- C2: in every failing execution of the download task — the request
raising, an exception escaping the chunked read or the file write, or the
stream ending with a byte count different from the advertised content
length — `errorCallback` is invoked with a nonempty descriptive message, the
staging `.new` file does not exist when the task returns, and
`completedCallback` is never invoked. -/
theorem downloadTask_failure_clean (env : DownloadEnv)
    (hf : env.frozen = true) (hu : env.updaterFound = true)
    (hc : env.copyError = none) (h : downloadFails env) :
    ∃ msg, Event.error msg ∈ (downloadTask env).1 ∧ msg ≠ "" ∧
      (downloadTask env).2 = false ∧
      Event.completed ∉ (downloadTask env).1 := by
  rcases h with ⟨m, hr⟩ | ⟨T, s, m, hr, hs⟩ | ⟨T, s, hr, hs, hT, hd⟩
  · have he : downloadTask env =
        ([.copiedUpdater, .networkRequest,
          .error ("Update failed: " ++ m)], false) := by
      simp [downloadTask, hf, hu, hc, hr]
    refine ⟨"Update failed: " ++ m, ?_, update_failed_msg_ne_empty m, ?_, ?_⟩ <;>
      rw [he] <;> simp
  · have he : downloadTask env =
        (Event.copiedUpdater :: Event.networkRequest :: Event.fileCreated ::
            (streamLoop T s 0).1 ++
          [.removedStaging, .error ("Update failed: " ++ m)], false) := by
      simp [downloadTask, hf, hu, hc, hr, hs]
    refine ⟨"Update failed: " ++ m, ?_, update_failed_msg_ne_empty m, ?_, ?_⟩
    · rw [he]; simp
    · rw [he]
    · intro hmem
      rw [he] at hmem
      simp at hmem
      exact streamLoop_no_completed T s 0 hmem
  · have he : downloadTask env =
        (Event.copiedUpdater :: Event.networkRequest :: Event.fileCreated ::
            (streamLoop T s 0).1 ++
          [.removedStaging,
            .error "Download incomplete due to network drop!"], false) := by
      simp [downloadTask, hf, hu, hc, hr, hs, hT, hd]
    refine ⟨"Download incomplete due to network drop!", ?_, by decide, ?_, ?_⟩
    · rw [he]; simp
    · rw [he]
    · intro hmem
      rw [he] at hmem
      simp at hmem
      exact streamLoop_no_completed T s 0 hmem

theorem downloadTask_failure_clean_witness :
    downloadFails ⟨true, true, none, .success 10 [.chunk 4]⟩ ∧
      ∃ msg,
        Event.error msg ∈ (downloadTask ⟨true, true, none, .success 10 [.chunk 4]⟩).1 ∧
        msg ≠ "" ∧
        (downloadTask ⟨true, true, none, .success 10 [.chunk 4]⟩).2 = false ∧
        Event.completed ∉ (downloadTask ⟨true, true, none, .success 10 [.chunk 4]⟩).1 :=
  have hfail : downloadFails ⟨true, true, none, .success 10 [.chunk 4]⟩ :=
    Or.inr (Or.inr ⟨10, [.chunk 4], rfl, by decide, by decide, by decide⟩)
  ⟨hfail,
    downloadTask_failure_clean ⟨true, true, none, .success 10 [.chunk 4]⟩
      rfl rfl rfl hfail⟩

theorem downloadTask_dev_guard_witness :
    (DownloadEnv.mk false true none (.failure "net")).frozen = false ∧
      downloadTask ⟨false, true, none, .failure "net"⟩ =
        ([Event.error "Cannot self-update in dev environment"], false) ∧
      Event.networkRequest ∉ (downloadTask ⟨false, true, none, .failure "net"⟩).1 ∧
      Event.fileCreated ∉ (downloadTask ⟨false, true, none, .failure "net"⟩).1 :=
  ⟨rfl, downloadTask_dev_guard ⟨false, true, none, .failure "net"⟩ rfl⟩

/-- C10: when the server advertises a nonzero content length and the stream
ends (without raising) having delivered a byte count different from it in
either direction — including strictly more bytes than advertised — the task
deletes the staging `.new` file, invokes `errorCallback` with the
incomplete-download message, and never invokes `completedCallback`. -/
theorem downloadTask_byte_count_mismatch (env : DownloadEnv)
    (totalSize : Nat) (stream : List StreamItem)
    (hf : env.frozen = true) (hu : env.updaterFound = true)
    (hc : env.copyError = none)
    (hr : env.request = .success totalSize stream)
    (hT : 0 < totalSize)
    (hs : (streamLoop totalSize stream 0).2.2 = none)
    (hd : (streamLoop totalSize stream 0).2.1 ≠ totalSize) :
    Event.removedStaging ∈ (downloadTask env).1 ∧
      Event.error "Download incomplete due to network drop!" ∈ (downloadTask env).1 ∧
      Event.completed ∉ (downloadTask env).1 ∧
      (downloadTask env).2 = false := by
  have he : downloadTask env =
      (Event.copiedUpdater :: Event.networkRequest :: Event.fileCreated ::
          (streamLoop totalSize stream 0).1 ++
        [.removedStaging,
          .error "Download incomplete due to network drop!"], false) := by
    simp [downloadTask, hf, hu, hc, hr, hs, hT, hd]
  refine ⟨?_, ?_, ?_, ?_⟩
  · rw [he]; simp
  · rw [he]; simp
  · intro hmem
    rw [he] at hmem
    simp at hmem
    exact streamLoop_no_completed totalSize stream 0 hmem
  · rw [he]

theorem downloadTask_byte_count_mismatch_witness :
    0 < 5 ∧ (streamLoop 5 [.chunk 10] 0).2.1 = 10 ∧
      (Event.removedStaging ∈
          (downloadTask ⟨true, true, none, .success 5 [.chunk 10]⟩).1 ∧
        Event.error "Download incomplete due to network drop!" ∈
          (downloadTask ⟨true, true, none, .success 5 [.chunk 10]⟩).1 ∧
        Event.completed ∉
          (downloadTask ⟨true, true, none, .success 5 [.chunk 10]⟩).1 ∧
        (downloadTask ⟨true, true, none, .success 5 [.chunk 10]⟩).2 = false) :=
  ⟨by decide, by decide,
    downloadTask_byte_count_mismatch ⟨true, true, none, .success 5 [.chunk 10]⟩
      5 [.chunk 10] rfl rfl rfl rfl (by decide) (by decide) (by decide)⟩

/-- C7: ordering of the handoff.  Primary side: whenever `_launchUpdater` is
invoked, the download completed and passed the integrity check (the stream
raised no exception and, when a content length was advertised, the byte count
matches), `completedCallback` fired strictly before the launch, and the
Updater binary was copied out to the OS temp directory strictly before the
launch.  Updater side: whenever the move is attempted, the old binary was
either already absent or its removal succeeded strictly before the move. -/
theorem handoff_ordering :
    (∀ env : DownloadEnv, Event.launchedUpdater ∈ (downloadTask env).1 →
      occursBefore Event.copiedUpdater Event.launchedUpdater (downloadTask env).1 ∧
      occursBefore Event.completed Event.launchedUpdater (downloadTask env).1 ∧
      ∃ totalSize stream, env.request = .success totalSize stream ∧
        (streamLoop totalSize stream 0).2.2 = none ∧
        (totalSize = 0 ∨ (streamLoop totalSize stream 0).2.1 = totalSize)) ∧
    (∀ env : UpdaterEnv, UEvent.moveAttempted ∈ performUpdate env →
      env.oldExists = false ∨
        occursBefore UEvent.removedOld UEvent.moveAttempted (performUpdate env)) := by
  constructor
  · intro env h
    cases hfz : env.frozen with
    | false => simp [downloadTask, hfz] at h
    | true =>
      cases hup : env.updaterFound with
      | false => simp [downloadTask, hfz, hup] at h
      | true =>
        cases hcp : env.copyError with
        | some m => simp [downloadTask, hfz, hup, hcp] at h
        | none =>
          cases hreq : env.request with
          | failure m => simp [downloadTask, hfz, hup, hcp, hreq] at h
          | success totalSize stream =>
            cases hs : (streamLoop totalSize stream 0).2.2 with
            | some m =>
              have he : downloadTask env =
                  (Event.copiedUpdater :: Event.networkRequest ::
                      Event.fileCreated :: (streamLoop totalSize stream 0).1 ++
                    [.removedStaging, .error ("Update failed: " ++ m)],
                   false) := by
                simp [downloadTask, hfz, hup, hcp, hreq, hs]
              rw [he] at h
              simp at h
              exact absurd h (streamLoop_no_launched totalSize stream 0)
            | none =>
              by_cases hcond :
                  0 < totalSize ∧ (streamLoop totalSize stream 0).2.1 ≠ totalSize
              · obtain ⟨hT, hd⟩ := hcond
                have he : downloadTask env =
                    (Event.copiedUpdater :: Event.networkRequest ::
                        Event.fileCreated :: (streamLoop totalSize stream 0).1 ++
                      [.removedStaging,
                        .error "Download incomplete due to network drop!"],
                     false) := by
                  simp [downloadTask, hfz, hup, hcp, hreq, hs, hT, hd]
                rw [he] at h
                simp at h
                exact absurd h (streamLoop_no_launched totalSize stream 0)
              · have he : downloadTask env =
                    (Event.copiedUpdater :: Event.networkRequest ::
                        Event.fileCreated :: (streamLoop totalSize stream 0).1 ++
                      [.completed, .launchedUpdater], true) := by
                  simp [downloadTask, hfz, hup, hcp, hreq, hs, hcond]
                refine ⟨?_, ?_, totalSize, stream, rfl, hs, by omega⟩
                · rw [he]
                  exact ⟨[], Event.networkRequest :: Event.fileCreated ::
                      (streamLoop totalSize stream 0).1 ++ [Event.completed],
                    [], by simp⟩
                · rw [he]
                  exact ⟨Event.copiedUpdater :: Event.networkRequest ::
                      Event.fileCreated :: (streamLoop totalSize stream 0).1,
                    [], [], by simp⟩
  · intro env h
    cases hex : env.oldExists with
    | false => exact Or.inl rfl
    | true =>
      cases hfind : (List.range 15).find? env.removeOk with
      | none =>
        have he : performUpdate env = [UEvent.timedOut] := by
          simp [performUpdate, hex, hfind]
        rw [he] at h
        simp at h
      | some i =>
        have he : performUpdate env = UEvent.removedOld :: installPhase env := by
          simp [performUpdate, hex, hfind]
        right
        rw [he]
        exact ⟨[], [], _, rfl⟩

theorem handoff_ordering_witness :
    (Event.launchedUpdater ∈
        (downloadTask ⟨true, true, none, .success 2 [.chunk 2]⟩).1 ∧
      occursBefore Event.copiedUpdater Event.launchedUpdater
        (downloadTask ⟨true, true, none, .success 2 [.chunk 2]⟩).1 ∧
      occursBefore Event.completed Event.launchedUpdater
        (downloadTask ⟨true, true, none, .success 2 [.chunk 2]⟩).1) ∧
      (UEvent.moveAttempted ∈ performUpdate ⟨true, fun _ => true, true, true⟩ ∧
        ((UpdaterEnv.mk true (fun _ => true) true true).oldExists = false ∨
          occursBefore UEvent.removedOld UEvent.moveAttempted
            (performUpdate ⟨true, fun _ => true, true, true⟩))) :=
  ⟨⟨by decide,
      (handoff_ordering.1 ⟨true, true, none, .success 2 [.chunk 2]⟩ (by decide)).1,
      (handoff_ordering.1 ⟨true, true, none, .success 2 [.chunk 2]⟩ (by decide)).2.1⟩,
    by decide,
    handoff_ordering.2 ⟨true, fun _ => true, true, true⟩ (by decide)⟩

/-! ## Progress monotonicity (C6) -/

lemma pymin_le_one (a : ℚ) : pymin a 1 ≤ 1 := by
  unfold pymin
  split
  · assumption
  · exact le_refl 1

lemma pymin_mono_left {a b : ℚ} (h : a ≤ b) : pymin a 1 ≤ pymin b 1 := by
  unfold pymin
  split_ifs <;> linarith

lemma pymin_one_one : pymin 1 1 = 1 := by
  unfold pymin
  simp

lemma progressValues_append (l₁ l₂ : List Event) :
    progressValues (l₁ ++ l₂) = progressValues l₁ ++ progressValues l₂ := by
  induction l₁ with
  | nil => rfl
  | cons e l ih => cases e <;> simp [progressValues, ih]

/-- The fractions emitted by the chunk loop, started at an accumulated byte
count `d` against a positive advertised size: each lies between the starting
fraction and `1`, they are non-decreasing, and the loop either emits none and
leaves the count unchanged or its last emitted fraction is the clamped
fraction of the final count. -/
lemma streamLoop_progress_spec (totalSize : Nat) (hT : 0 < totalSize)
    (s : List StreamItem) : ∀ d : Nat,
    (∀ q ∈ progressValues (streamLoop totalSize s d).1,
       pymin ((d : ℚ) / (totalSize : ℚ)) 1 ≤ q ∧ q ≤ 1) ∧
    List.Chain' (· ≤ ·) (progressValues (streamLoop totalSize s d).1) ∧
    ((progressValues (streamLoop totalSize s d).1 = [] ∧
        (streamLoop totalSize s d).2.1 = d) ∨
      (progressValues (streamLoop totalSize s d).1).getLast? =
        some (pymin (((streamLoop totalSize s d).2.1 : ℚ) / (totalSize : ℚ)) 1)) := by
  induction s with
  | nil => intro d; simp [streamLoop, progressValues]
  | cons it rest ih =>
    intro d
    cases it with
    | err m => simp [streamLoop, progressValues]
    | chunk n =>
      by_cases hn : n = 0
      · simp [streamLoop, hn, progressValues]
      · rw [streamLoop_cons_pos totalSize n rest d hn, if_pos hT]
        obtain ⟨hbound, hchain, hlast⟩ := ih (d + n)
        have hTpos : (0 : ℚ) < (totalSize : ℚ) := by exact_mod_cast hT
        have hstep : (d : ℚ) / (totalSize : ℚ) ≤
            ((d + n : Nat) : ℚ) / (totalSize : ℚ) := by
          have hcast : ((d : ℚ)) ≤ ((d + n : Nat) : ℚ) := by
            exact_mod_cast Nat.le_add_right d n
          exact (div_le_div_iff_of_pos_right hTpos).mpr hcast
        have hpv : progressValues
            (Event.wrote n ::
              ([Event.progress (pymin (((d + n : Nat) : ℚ) / (totalSize : ℚ)) 1)] ++
                (streamLoop totalSize rest (d + n)).1)) =
            pymin (((d + n : Nat) : ℚ) / (totalSize : ℚ)) 1 ::
              progressValues (streamLoop totalSize rest (d + n)).1 := by
          simp [progressValues]
        refine ⟨?_, ?_, ?_⟩
        · intro q hq
          rw [hpv] at hq
          rcases List.mem_cons.mp hq with rfl | hq
          · exact ⟨pymin_mono_left hstep, pymin_le_one _⟩
          · obtain ⟨h1, h2⟩ := hbound q hq
            exact ⟨le_trans (pymin_mono_left hstep) h1, h2⟩
        · rw [hpv]
          refine List.chain'_cons'.mpr ⟨?_, hchain⟩
          intro y hy
          exact (hbound y (List.mem_of_mem_head? hy)).1
        · rw [hpv]
          rcases hlast with ⟨hnil, hd'⟩ | hl
          · right
            rw [hnil, hd']
            rfl
          · right
            cases hvals : progressValues (streamLoop totalSize rest (d + n)).1 with
            | nil => rw [hvals] at hl; exact Option.noConfusion hl
            | cons q t =>
              rw [hvals] at hl
              rw [List.getLast?_cons_cons]
              exact hl

/-- C6: during a successful download with an advertised content length, the
fractions passed to `progressCallback` are non-decreasing, each is at most
`1`, and the last fraction reported (before `completedCallback` fires, which
every progress report precedes) equals `1`. -/
theorem downloadTask_progress_monotone (env : DownloadEnv) (totalSize : Nat)
    (stream : List StreamItem)
    (hf : env.frozen = true) (hu : env.updaterFound = true)
    (hc : env.copyError = none)
    (hr : env.request = .success totalSize stream)
    (hT : 0 < totalSize)
    (hcomp : Event.completed ∈ (downloadTask env).1) :
    List.Chain' (· ≤ ·) (progressValues (downloadTask env).1) ∧
      (∀ q ∈ progressValues (downloadTask env).1, q ≤ 1) ∧
      (progressValues (downloadTask env).1).getLast? = some 1 := by
  cases hs : (streamLoop totalSize stream 0).2.2 with
  | some m =>
    have he : downloadTask env =
        (Event.copiedUpdater :: Event.networkRequest :: Event.fileCreated ::
            (streamLoop totalSize stream 0).1 ++
          [.removedStaging, .error ("Update failed: " ++ m)], false) := by
      simp [downloadTask, hf, hu, hc, hr, hs]
    rw [he] at hcomp
    simp at hcomp
    exact absurd hcomp (streamLoop_no_completed totalSize stream 0)
  | none =>
    by_cases hcond :
        0 < totalSize ∧ (streamLoop totalSize stream 0).2.1 ≠ totalSize
    · obtain ⟨hT', hd⟩ := hcond
      have he : downloadTask env =
          (Event.copiedUpdater :: Event.networkRequest :: Event.fileCreated ::
              (streamLoop totalSize stream 0).1 ++
            [.removedStaging,
              .error "Download incomplete due to network drop!"], false) := by
        simp [downloadTask, hf, hu, hc, hr, hs, hT', hd]
      rw [he] at hcomp
      simp at hcomp
      exact absurd hcomp (streamLoop_no_completed totalSize stream 0)
    · have hdT : (streamLoop totalSize stream 0).2.1 = totalSize := by omega
      have he : downloadTask env =
          (Event.copiedUpdater :: Event.networkRequest :: Event.fileCreated ::
              (streamLoop totalSize stream 0).1 ++
            [.completed, .launchedUpdater], true) := by
        simp [downloadTask, hf, hu, hc, hr, hs, hcond]
      have htr : progressValues (downloadTask env).1 =
          progressValues (streamLoop totalSize stream 0).1 := by
        rw [he]
        simp [progressValues_append, progressValues]
      obtain ⟨hbound, hchain, hlast⟩ :=
        streamLoop_progress_spec totalSize hT stream 0
      rw [htr]
      refine ⟨hchain, fun q hq => (hbound q hq).2, ?_⟩
      rcases hlast with ⟨hnil, hd0⟩ | hl
      · rw [hdT] at hd0
        omega
      · rw [hdT] at hl
        have hTone : ((totalSize : ℚ)) / (totalSize : ℚ) = 1 := by
          have : (totalSize : ℚ) ≠ 0 := by
            exact_mod_cast Nat.pos_iff_ne_zero.mp hT
          exact div_self this
        rw [hTone, pymin_one_one] at hl
        exact hl

theorem downloadTask_progress_monotone_witness :
    0 < 2 ∧
      Event.completed ∈
        (downloadTask ⟨true, true, none, .success 2 [.chunk 1, .chunk 1]⟩).1 ∧
      (List.Chain' (· ≤ ·)
          (progressValues
            (downloadTask ⟨true, true, none, .success 2 [.chunk 1, .chunk 1]⟩).1) ∧
        (∀ q ∈ progressValues
            (downloadTask ⟨true, true, none, .success 2 [.chunk 1, .chunk 1]⟩).1,
          q ≤ 1) ∧
        (progressValues
            (downloadTask ⟨true, true, none, .success 2 [.chunk 1, .chunk 1]⟩).1).getLast? =
          some 1) :=
  ⟨by decide, by decide,
    downloadTask_progress_monotone ⟨true, true, none, .success 2 [.chunk 1, .chunk 1]⟩
      2 [.chunk 1, .chunk 1] rfl rfl rfl rfl (by decide) (by decide)⟩

end VideoDownloaderPro
